import Mathlib

/-!
Shallow embedding of the CallingJournal frontend core: the shared API client
(`src/unnamed/part_000`, an axios-based module), the collaborative editor
component `AITalk` (`src/frontend/src/AITalk.jsx`) and the standalone chat
component `ChatInterface` (`src/frontend/src/ChatInterface.jsx`).

Network effects are modelled by passing the outcome of each awaited call as an
explicit parameter (`Except` / `ApiResult`), and each handler returns the new
component state together with the request it issued (if any).  JavaScript
truthiness tests on nullable strings and numbers are modelled explicitly.
-/

/-- JavaScript truthiness of a nullable string: `null` and `""` are falsy. -/
def strTruthy : Option String → Bool
  | none => false
  | some s => s ≠ ""

/-- JavaScript truthiness of a nullable number: `null` and `0` are falsy. -/
def natTruthy : Option Nat → Bool
  | none => false
  | some n => n ≠ 0

/-- JavaScript `String.prototype.trim`: strip leading and trailing whitespace. -/
def jsTrim (s : String) : String :=
  ⟨((s.data.dropWhile Char.isWhitespace).reverse.dropWhile Char.isWhitespace).reverse⟩

/-- The browser `localStorage`, modelled as an association list of key/value pairs. -/
abbrev LocalStorage := List (String × String)

/-- Key lookup (`localStorage.getItem`, and header lookup on a request config). -/
def assocGet : List (String × String) → String → Option String
  | [], _ => none
  | (k2, v) :: rest, k => if k2 = k then some v else assocGet rest k

/-- Key update-or-insert (`localStorage.setItem`, and header assignment). -/
def updateAssoc : List (String × String) → String → String → List (String × String)
  | [], k, v => [(k, v)]
  | (k2, v2) :: rest, k, v =>
      if k2 = k then (k, v) :: rest else (k2, v2) :: updateAssoc rest k v

theorem assocGet_updateAssoc (l : List (String × String)) (k v : String) :
    assocGet (updateAssoc l k v) k = some v := by
  induction l with
  | nil => simp [updateAssoc, assocGet]
  | cons p rest ih =>
      obtain ⟨k2, v2⟩ := p
      by_cases h : k2 = k
      · simp [updateAssoc, assocGet, h]
      · simp [updateAssoc, assocGet, h, ih]

/-- The HTTP response attached to an axios error (only the status matters here). -/
structure HttpResponse where
  status : Nat
  deriving Repr, DecidableEq

/-- An axios error object: it may or may not carry a server response
(`error.response` is absent for network-level failures). -/
structure ApiError where
  response : Option HttpResponse
  deriving Repr, DecidableEq

/-- Outcome of an awaited `api.get`/`api.post` call. -/
inductive ApiResult (α : Type) where
  | ok (data : α)
  | err (error : ApiError)
  deriving Repr, DecidableEq

/-- A journal entry as the client sends/receives it. -/
structure Entry where
  date : String
  title : String
  content : String
  mood : String
  audio_url : Option String
  deriving Repr, DecidableEq

/-- `getEntry(date)` from the API client: on success return the data; on an
error carrying a 404 response return `null`; re-throw every other error. -/
def getEntry (result : ApiResult Entry) : Except ApiError (Option Entry) :=
  match result with
  | .ok data => .ok (some data)
  | .err error =>
      match error.response with
      | some r => if r.status = 404 then .ok none else .error error
      | none => .error error

/-- The JSON body posted to `/chat/{sessionId}`; `context = none` means the
field is absent from the payload. -/
structure ChatPayload where
  role : String
  content : String
  context : Option String
  deriving Repr, DecidableEq

/-- A request issued to `POST /chat/{sessionId}`. -/
structure SendRequest where
  sessionId : Nat
  payload : ChatPayload
  deriving Repr, DecidableEq

/-- `sendMessage(sessionId, content, context = null)` from the API client:
builds `{role: "user", content}` and adds a `context` field only when the
`context` argument is truthy.  The network post is abstracted into returning
the request it issues. -/
def sendMessage (sessionId : Nat) (content : String)
    (context : Option String := none) : SendRequest :=
  let payload : ChatPayload := { role := "user", content := content, context := none }
  let payload := if strTruthy context then { payload with context := context } else payload
  { sessionId := sessionId, payload := payload }

/-- An axios request config (only the headers matter here). -/
structure RequestConfig where
  headers : List (String × String)
  deriving Repr, DecidableEq

/-- The request interceptor on the shared axios instance: read the token from
`localStorage` and, when it is truthy, set the `Authorization` header to
`Bearer <token>`. -/
def requestInterceptor (storage : LocalStorage) (config : RequestConfig) : RequestConfig :=
  let token := assocGet storage "token"
  if strTruthy token then
    { config with
        headers := updateAssoc config.headers "Authorization" ("Bearer " ++ token.getD "") }
  else config

/-- `login`: when the token endpoint response carries a truthy `access_token`,
store it in `localStorage` under the key `token`. -/
def login (storage : LocalStorage) (access_token : Option String) : LocalStorage :=
  if strTruthy access_token then updateAssoc storage "token" (access_token.getD "")
  else storage

/-- A chat message as held in component state (`{role, content}`). -/
structure ChatMsg where
  role : String
  content : String
  deriving Repr, DecidableEq

/-- A chat session as returned by `POST /chat/sessions`. -/
structure Session where
  id : Nat
  title : String
  deriving Repr, DecidableEq

namespace AITalk

/-- The component state of `AITalk.jsx` relevant to the verified behaviour. -/
structure State where
  content : String
  title : String
  entryExists : Bool
  chatSessionId : Option Nat
  chatMessages : List ChatMsg
  userInput : String
  isAiThinking : Bool
  storage : LocalStorage
  deriving Repr, DecidableEq

/-- The per-date `localStorage` key caching the chat session id. -/
def storageKey (selectedDate : String) : String := "chat_session_" ++ selectedDate

/-- The fixed apologetic fallback text appended on provider failure. -/
def fallbackText : String := "Sorry, I encountered an error. Please try again."

/-- The initial greeting inserted by `createNewSession`. -/
def greeting : ChatMsg :=
  { role := "model"
    content := "Hi! I'm here to help you write your journal entry. Feel free to ask for suggestions, improvements, or just chat about your day." }

/-- `createNewSession(storageKey)`: create a session titled
`Journal: <date>`, record its id in state and under the cache key, and reset
the messages to the greeting; a creation failure is caught and leaves the
state unchanged. -/
def createNewSession (s : State) (selectedDate : String) (key : String)
    (createResult : Except Unit Session) : State :=
  match createResult with
  | .ok session =>
      { s with
          chatSessionId := some session.id
          storage := updateAssoc s.storage key (toString session.id)
          chatMessages := [greeting] }
  | .error _ => s

/-- `initializeChatSession()`: reuse the cached per-date session id when
present (falling back to a fresh session if its history fails to load),
otherwise create and cache a fresh session. -/
def initializeChatSession (s : State) (selectedDate : String)
    (historyResult : Except Unit (List ChatMsg))
    (createResult : Except Unit Session) : State :=
  let key := storageKey selectedDate
  let stored := assocGet s.storage key
  if strTruthy stored then
    let s1 := { s with chatSessionId := some (((stored.getD "").toNat?).getD 0) }
    match historyResult with
    | .ok history => { s1 with chatMessages := history }
    | .error _ => createNewSession s1 selectedDate key createResult
  else
    createNewSession s selectedDate key createResult

/-- The operation issued against the entry store by `handleSave`. -/
inductive SaveOp where
  | create (e : Entry)
  | update (date : String) (e : Entry)
  deriving Repr, DecidableEq

/-- `handleSave()`: build the entry data from the current state and either
update (when `entryExists`) or create, marking the entry as existing after a
successful create; failures are caught. Returns the new `entryExists` flag
and the operation issued. -/
def handleSave (selectedDate title content : String) (entryExists : Bool)
    (opResult : Except Unit Unit) : Bool × SaveOp :=
  let entryData : Entry :=
    { date := selectedDate, title := title, content := content
      mood := "😊", audio_url := none }
  if entryExists then
    (entryExists, SaveOp.update selectedDate entryData)
  else
    match opResult with
    | .ok _ => (true, SaveOp.create entryData)
    | .error _ => (false, SaveOp.create entryData)

/-- The context string assembled by `handleSendMessage` from the in-editor
document: `Current Journal Entry:\nTitle: <title>\nContent: <content>`. -/
def contextString (title content : String) : String :=
  "Current Journal Entry:\nTitle: " ++ title ++ "\nContent: " ++ content

/-- `handleSendMessage(e)`: return immediately when the trimmed input is
falsy or the session id is falsy; otherwise append the user message, clear
the input, call `sendMessage` with the fresh document context, and append
either the model reply or the fixed fallback message.  Returns the new state
and the request issued (`none` when no network call is made). -/
def handleSendMessage (s : State) (providerResult : Except Unit String) :
    State × Option SendRequest :=
  if jsTrim s.userInput = "" ∨ natTruthy s.chatSessionId = false then (s, none)
  else
    let newMessage : ChatMsg := { role := "user", content := s.userInput }
    let context := contextString s.title s.content
    let req := sendMessage (s.chatSessionId.getD 0) newMessage.content (some context)
    match providerResult with
    | .ok replyContent =>
        ({ s with
            chatMessages :=
              s.chatMessages ++ [newMessage, { role := "model", content := replyContent }]
            userInput := ""
            isAiThinking := false }, some req)
    | .error _ =>
        ({ s with
            chatMessages :=
              s.chatMessages ++ [newMessage, { role := "model", content := fallbackText }]
            userInput := ""
            isAiThinking := false }, some req)

end AITalk

namespace ChatInterface

/-- The component state of `ChatInterface.jsx` relevant to the verified
behaviour.  Messages are kept as role/content pairs (ids and wall-clock
timestamps are outside the model). -/
structure State where
  messages : List ChatMsg
  inputMessage : String
  isLoading : Bool
  sessions : List Session
  currentSessionId : Option Nat
  deriving Repr, DecidableEq

/-- `handleSendMessage(customMessage = null)`: resolve the message text,
return when it is falsy/blank or a send is in flight; create (and select) a
session when none is selected, aborting if that creation fails; then append
the user message, clear the input and send it — the context argument is
omitted.  A provider failure is caught and only logged.  Returns the new
state and the request issued (`none` when no send happened). -/
def handleSendMessage (s : State) (customMessage : Option String)
    (createResult : Except Unit Session) (sendResult : Except Unit String) :
    State × Option SendRequest :=
  let messageToSend := match customMessage with | some m => m | none => s.inputMessage
  if messageToSend = "" ∨ jsTrim messageToSend = "" ∨ s.isLoading then (s, none)
  else
    let step1 : Option (State × Nat) :=
      if natTruthy s.currentSessionId then some (s, s.currentSessionId.getD 0)
      else
        match createResult with
        | .ok newSession =>
            some ({ s with
                      sessions := newSession :: s.sessions
                      currentSessionId := some newSession.id }, newSession.id)
        | .error _ => none
    match step1 with
    | none => (s, none)
    | some (s1, activeSessionId) =>
        let newMessage : ChatMsg := { role := "user", content := messageToSend }
        let s2 := { s1 with messages := s1.messages ++ [newMessage], inputMessage := "" }
        let req := sendMessage activeSessionId messageToSend
        match sendResult with
        | .ok replyContent =>
            ({ s2 with
                messages := s2.messages ++ [{ role := "assistant", content := replyContent }]
                isLoading := false }, some req)
        | .error _ => ({ s2 with isLoading := false }, some req)

end ChatInterface

/-! Claim theorems. -/

/-- The assembled context is never the empty string, so the truthiness test in
`sendMessage` always keeps it. -/
theorem contextString_ne_empty (t c : String) : AITalk.contextString t c ≠ "" := by
  intro h
  have hd := congrArg String.data h
  simp [AITalk.contextString, String.data_append] at hd

/-- A concrete editor state with title `T`, content `C` and pending input. -/
def sampleEditorState : AITalk.State :=
  { content := "C", title := "T", entryExists := true, chatSessionId := some 1
    chatMessages := [], userInput := "hi", isAiThinking := false, storage := [] }

/-- C1 counterexample: with title `T` and content `C`, the context actually
sent is `Current Journal Entry:\nTitle: T\nContent: C`, not the claimed
`current document state: title=T, content=C`. -/
theorem context_format_counterexample :
    (AITalk.handleSendMessage sampleEditorState (.ok "reply")).2 =
      some { sessionId := 1
             payload := { role := "user", content := "hi"
                          context := some "Current Journal Entry:\nTitle: T\nContent: C" } } ∧
    "Current Journal Entry:\nTitle: T\nContent: C" ≠
      "current document state: title=T, content=C" := by
  constructor
  · decide
  · decide

/-- C1 (amended): whenever the collaborative editor's send handler issues a
request, its context is exactly `Current Journal Entry:\nTitle: <t>\nContent:
<c>` built from the in-editor title and content of the state at send time
(the state carries no persisted copy, so the context never depends on one). -/
theorem context_fresh_from_editor (s : AITalk.State) (r : Except Unit String)
    (req : SendRequest) (h : (AITalk.handleSendMessage s r).2 = some req) :
    req.payload.context =
      some ("Current Journal Entry:\nTitle: " ++ s.title ++ "\nContent: " ++ s.content) := by
  unfold AITalk.handleSendMessage at h
  by_cases hg : jsTrim s.userInput = "" ∨ natTruthy s.chatSessionId = false
  · simp [hg] at h
  · rw [if_neg hg] at h
    have hne : "Current Journal Entry:\nTitle: " ++ s.title ++ "\nContent: " ++ s.content ≠ "" := by
      have := contextString_ne_empty s.title s.content
      simpa [AITalk.contextString] using this
    have hctx :
        strTruthy (some ("Current Journal Entry:\nTitle: " ++ s.title ++ "\nContent: " ++ s.content))
          = true := by
      simp [strTruthy, hne]
    cases r with
    | ok c =>
        simp only [Option.some.injEq] at h
        subst h
        simp [sendMessage, AITalk.contextString, hctx]
    | error e =>
        simp only [Option.some.injEq] at h
        subst h
        simp [sendMessage, AITalk.contextString, hctx]

/-- C1 witness for the amended theorem. -/
theorem context_fresh_from_editor_witness :
    ({ sessionId := 1
       payload := { role := "user", content := "hi"
                    context := some "Current Journal Entry:\nTitle: T\nContent: C" } } :
      SendRequest).payload.context =
      some ("Current Journal Entry:\nTitle: " ++ "T" ++ "\nContent: " ++ "C") :=
  context_fresh_from_editor sampleEditorState (.ok "reply") _ (by decide)

/-- C10: with blank (all-whitespace) input or no session id, the collaborative
editor's send handler returns the state unchanged and issues no request. -/
theorem blank_input_noop (s : AITalk.State) (r : Except Unit String)
    (h : jsTrim s.userInput = "" ∨ s.chatSessionId = none) :
    AITalk.handleSendMessage s r = (s, none) := by
  unfold AITalk.handleSendMessage
  have hg : jsTrim s.userInput = "" ∨ natTruthy s.chatSessionId = false := by
    rcases h with h | h
    · exact Or.inl h
    · exact Or.inr (by simp [natTruthy, h])
  rw [if_pos hg]

/-- A concrete editor state whose pending input is whitespace only. -/
def blankInputState : AITalk.State :=
  { content := "c", title := "t", entryExists := false, chatSessionId := some 5
    chatMessages := [⟨"model", "m"⟩], userInput := "   ", isAiThinking := false, storage := [] }

/-- C10 witness. -/
theorem blank_input_noop_witness :
    AITalk.handleSendMessage blankInputState (.ok "r") = (blankInputState, none) :=
  blank_input_noop blankInputState (.ok "r") (Or.inl (by decide))

/-- A concrete standalone-chat state with a selected session and input `hello`. -/
def chatStateHello : ChatInterface.State :=
  { messages := [], inputMessage := "hello", isLoading := false
    sessions := [⟨1, "t"⟩], currentSessionId := some 1 }

/-- C2 counterexample: in the standalone chat (`ChatInterface.jsx`), a
provider failure after the user sends `hello` leaves the list with only the
user message — no model-role fallback message is appended. -/
theorem provider_failure_counterexample :
    (ChatInterface.handleSendMessage chatStateHello none (.error ()) (.error ())).1.messages
      = [{ role := "user", content := "hello" }] := by decide

/-- C2 (amended): on provider failure the collaborative editor's chat gains
exactly the user message followed by the model-role fixed fallback message,
and the handler is total (no exception reaches the caller); the standalone
chat also swallows the failure but gains only the user message. -/
theorem provider_failure_fallback (s : AITalk.State) (c : ChatInterface.State)
    (h1 : jsTrim s.userInput ≠ "") (h2 : natTruthy s.chatSessionId = true)
    (h3 : c.inputMessage ≠ "") (h4 : jsTrim c.inputMessage ≠ "")
    (h5 : c.isLoading = false) (h6 : natTruthy c.currentSessionId = true) :
    (AITalk.handleSendMessage s (.error ())).1.chatMessages
      = s.chatMessages ++
          [{ role := "user", content := s.userInput },
           { role := "model", content := AITalk.fallbackText }] ∧
    (ChatInterface.handleSendMessage c none (.error ()) (.error ())).1.messages
      = c.messages ++ [{ role := "user", content := c.inputMessage }] := by
  constructor
  · unfold AITalk.handleSendMessage
    rw [if_neg (by simp [h1, h2])]
  · unfold ChatInterface.handleSendMessage
    rw [if_neg (by simp [h3, h4, h5])]
    simp [h6]

/-- A concrete collaborative-editor state with pending input `hello`. -/
def editorStateHello : AITalk.State :=
  { content := "c", title := "t", entryExists := false, chatSessionId := some 2
    chatMessages := [], userInput := "hello", isAiThinking := false, storage := [] }

/-- C2 witness for the amended theorem. -/
theorem provider_failure_fallback_witness :
    (AITalk.handleSendMessage editorStateHello (.error ())).1.chatMessages
      = [{ role := "user", content := "hello" },
         { role := "model", content := AITalk.fallbackText }] ∧
    (ChatInterface.handleSendMessage chatStateHello none (.error ()) (.error ())).1.messages
      = [{ role := "user", content := "hello" }] :=
  provider_failure_fallback editorStateHello chatStateHello
    (by decide) (by decide) (by decide) (by decide) (by decide) (by decide)

/-- C5: the editor's save is an existence-probing upsert — it updates when the
entry was found to exist, creates otherwise, marks the entry as existing after
a successful create (so a second save issues an update, never a second
create), and leaves it marked absent when the create fails. -/
theorem handleSave_upsert (d t c t2 c2 : String) (r1 r2 : Except Unit Unit) :
    (AITalk.handleSave d t c true r1).2
      = AITalk.SaveOp.update d
          { date := d, title := t, content := c, mood := "😊", audio_url := none } ∧
    AITalk.handleSave d t c false (.ok ())
      = (true, AITalk.SaveOp.create
          { date := d, title := t, content := c, mood := "😊", audio_url := none }) ∧
    (AITalk.handleSave d t2 c2 (AITalk.handleSave d t c false (.ok ())).1 r2).2
      = AITalk.SaveOp.update d
          { date := d, title := t2, content := c2, mood := "😊", audio_url := none } ∧
    (AITalk.handleSave d t c false (.error ())).1 = false := by
  refine ⟨by simp [AITalk.handleSave], by simp [AITalk.handleSave],
    by simp [AITalk.handleSave], by simp [AITalk.handleSave]⟩

/-- C6: `getEntry` yields `null` exactly when the error carries a 404
response, yields the entry data on success, and re-throws every other error
unchanged. -/
theorem getEntry_404_null (result : ApiResult Entry) :
    (getEntry result = .ok none ↔
      ∃ error r, result = .err error ∧ error.response = some r ∧ r.status = 404) ∧
    (∀ e, result = .ok e → getEntry result = .ok (some e)) ∧
    (∀ error, result = .err error →
      (∀ r, error.response = some r → r.status ≠ 404) →
      getEntry result = .error error) := by
  refine ⟨?_, ?_, ?_⟩
  · cases result with
    | ok data => simp [getEntry]
    | err error =>
        cases hr : error.response with
        | none => simp [getEntry, hr]
        | some r =>
            by_cases h404 : r.status = 404
            · simp [getEntry, hr, h404]
            · simp [getEntry, hr, h404]
  · intro e he
    subst he
    rfl
  · intro error he hother
    subst he
    cases hr : error.response with
    | none => simp [getEntry, hr]
    | some r => simp [getEntry, hr, hother r hr]

/-- C6 witness: a 404 error maps to `null`, a created entry comes back as
data, and a 500 error is re-thrown. -/
theorem getEntry_404_null_witness :
    getEntry (ApiResult.err { response := some { status := 404 } }) = .ok none ∧
    getEntry (ApiResult.err { response := some { status := 500 } })
      = .error { response := some { status := 500 } } :=
  ⟨((getEntry_404_null (ApiResult.err { response := some { status := 404 } })).1).mpr
      ⟨_, _, rfl, rfl, rfl⟩,
    ((getEntry_404_null (ApiResult.err { response := some { status := 500 } })).2.2)
      { response := some { status := 500 } } rfl (by decide)⟩

/-- C3 counterexample: supplying the empty string as context — a supplied
context string — yields a payload whose context field is absent, not equal to
that string. -/
theorem empty_context_counterexample :
    (sendMessage 1 "hi" (some "")).payload.context = none ∧
    (sendMessage 1 "hi" (some "")).payload.context ≠ some "" := by decide

/-- C3 (amended): with no context the payload has only role and content (no
context field); with a non-empty context string the payload's context field
equals that string, so the payload built from title `T` and content `C`
carries a context containing both `T` and `C`. -/
theorem sendMessage_context_payload (sid : Nat) (content c : String) (h : c ≠ "") :
    (sendMessage sid content none).payload
      = { role := "user", content := content, context := none } ∧
    (sendMessage sid content (some c)).payload
      = { role := "user", content := content, context := some c } ∧
    (sendMessage sid content (some (AITalk.contextString "T" "C"))).payload.context
      = some ("Current Journal Entry:\nTitle: " ++ "T" ++ "\nContent: " ++ "C") := by
  refine ⟨by simp [sendMessage, strTruthy], ?_, ?_⟩
  · simp [sendMessage, strTruthy, h]
  · simp [sendMessage, strTruthy, AITalk.contextString, contextString_ne_empty "T" "C"]

/-- C3 witness for the amended theorem. -/
theorem sendMessage_context_payload_witness :
    (sendMessage 1 "hello" (some "x")).payload
      = { role := "user", content := "hello", context := some "x" } :=
  (sendMessage_context_payload 1 "hello" "x" (by decide)).2.1

/-- C9: every falsy context — absent, `null` or the empty string — leaves the
payload without a context field. -/
theorem sendMessage_falsy_context_omitted (sid : Nat) (content : String) :
    (sendMessage sid content).payload.context = none ∧
    (sendMessage sid content (some "")).payload.context = none ∧
    ∀ ctx, strTruthy ctx = false →
      sendMessage sid content ctx
        = { sessionId := sid
            payload := { role := "user", content := content, context := none } } := by
  refine ⟨by simp [sendMessage, strTruthy], by simp [sendMessage, strTruthy], ?_⟩
  intro ctx hctx
  simp [sendMessage, hctx]

/-- C9 witness. -/
theorem sendMessage_falsy_context_omitted_witness :
    sendMessage 2 "hey" (some "")
      = { sessionId := 2
          payload := { role := "user", content := "hey", context := none } } :=
  (sendMessage_falsy_context_omitted 2 "hey").2.2 (some "") (by decide)

/-- C4: with a cached per-date session id whose history load fails, the
editor creates a fresh session, records its id in state and under the same
cache key, and raises no error (the handler is total); with nothing cached it
likewise creates and caches a fresh session. -/
theorem session_cache_recovery (s s2 : AITalk.State) (d : String) (session : Session)
    (stored : String)
    (hstored : assocGet s.storage (AITalk.storageKey d) = some stored)
    (hne : stored ≠ "")
    (hnone : assocGet s2.storage (AITalk.storageKey d) = none) :
    (AITalk.initializeChatSession s d (.error ()) (.ok session)).chatSessionId
      = some session.id ∧
    assocGet (AITalk.initializeChatSession s d (.error ()) (.ok session)).storage
      (AITalk.storageKey d) = some (toString session.id) ∧
    (AITalk.initializeChatSession s2 d (.error ()) (.ok session)).chatSessionId
      = some session.id ∧
    assocGet (AITalk.initializeChatSession s2 d (.error ()) (.ok session)).storage
      (AITalk.storageKey d) = some (toString session.id) := by
  refine ⟨?_, ?_, ?_, ?_⟩
  · simp [AITalk.initializeChatSession, hstored, strTruthy, hne, AITalk.createNewSession]
  · simp [AITalk.initializeChatSession, hstored, strTruthy, hne, AITalk.createNewSession,
      assocGet_updateAssoc]
  · simp [AITalk.initializeChatSession, hnone, strTruthy, AITalk.createNewSession]
  · simp [AITalk.initializeChatSession, hnone, strTruthy, AITalk.createNewSession,
      assocGet_updateAssoc]

/-- An editor state whose per-date cache points at session 7 for 2024-01-01. -/
def staleCacheState : AITalk.State :=
  { content := "", title := "", entryExists := false, chatSessionId := none
    chatMessages := [], userInput := "", isAiThinking := false
    storage := [("chat_session_2024-01-01", "7")] }

/-- An editor state with an empty per-date cache. -/
def freshCacheState : AITalk.State :=
  { content := "", title := "", entryExists := false, chatSessionId := none
    chatMessages := [], userInput := "", isAiThinking := false, storage := [] }

/-- C4 witness. -/
theorem session_cache_recovery_witness :
    (AITalk.initializeChatSession staleCacheState "2024-01-01" (.error ())
        (.ok ⟨3, "Journal: 2024-01-01"⟩)).chatSessionId = some 3 ∧
    assocGet (AITalk.initializeChatSession staleCacheState "2024-01-01" (.error ())
        (.ok ⟨3, "Journal: 2024-01-01"⟩)).storage
      (AITalk.storageKey "2024-01-01") = some "3" := by
  have h := session_cache_recovery staleCacheState freshCacheState "2024-01-01"
    ⟨3, "Journal: 2024-01-01"⟩ "7" (by decide) (by decide) (by decide)
  exact ⟨h.1, h.2.1⟩

/-- C7: in the standalone chat with no session selected, sending a non-blank
message first creates a session, selects it, and sends the message to that
new session (appending the user message after it); if creation fails nothing
is appended and no request is made. -/
theorem implicit_session_creation (s : ChatInterface.State) (r : Except Unit String)
    (h0 : s.currentSessionId = none)
    (h1 : s.inputMessage ≠ "") (h2 : jsTrim s.inputMessage ≠ "") (h3 : s.isLoading = false) :
    (∀ ns : Session,
      (ChatInterface.handleSendMessage s none (.ok ns) r).1.currentSessionId = some ns.id ∧
      ns ∈ (ChatInterface.handleSendMessage s none (.ok ns) r).1.sessions ∧
      (ChatInterface.handleSendMessage s none (.ok ns) r).2
        = some (sendMessage ns.id s.inputMessage) ∧
      ∃ rest, (ChatInterface.handleSendMessage s none (.ok ns) r).1.messages
        = s.messages ++ [{ role := "user", content := s.inputMessage }] ++ rest) ∧
    ChatInterface.handleSendMessage s none (.error ()) r = (s, none) := by
  constructor
  · intro ns
    unfold ChatInterface.handleSendMessage
    rw [if_neg (by simp [h1, h2, h3])]
    cases r with
    | ok reply =>
        exact ⟨by simp [h0, natTruthy], by simp [h0, natTruthy], by simp [h0, natTruthy],
          ⟨[{ role := "assistant", content := reply }], by simp [h0, natTruthy]⟩⟩
    | error e =>
        exact ⟨by simp [h0, natTruthy], by simp [h0, natTruthy], by simp [h0, natTruthy],
          ⟨[], by simp [h0, natTruthy]⟩⟩
  · unfold ChatInterface.handleSendMessage
    rw [if_neg (by simp [h1, h2, h3])]
    simp [h0, natTruthy]

/-- A standalone-chat state with no session selected and input `hello`. -/
def noSessionState : ChatInterface.State :=
  { messages := [], inputMessage := "hello", isLoading := false
    sessions := [], currentSessionId := none }

/-- C7 witness. -/
theorem implicit_session_creation_witness :
    ((ChatInterface.handleSendMessage noSessionState none (.ok ⟨9, "New Chat"⟩)
        (.ok "hi")).1.currentSessionId = some 9 ∧
      (ChatInterface.handleSendMessage noSessionState none (.ok ⟨9, "New Chat"⟩)
        (.ok "hi")).2 = some (sendMessage 9 "hello")) ∧
    ChatInterface.handleSendMessage noSessionState none (.error ()) (.ok "hi")
      = (noSessionState, none) := by
  have h := implicit_session_creation noSessionState (.ok "hi")
    (by decide) (by decide) (by decide) (by decide)
  exact ⟨⟨(h.1 ⟨9, "New Chat"⟩).1, (h.1 ⟨9, "New Chat"⟩).2.2.1⟩, h.2⟩

/-- C8: a truthy token in client storage makes every request through the
shared client carry `Authorization: Bearer <token>`; with no stored token the
config is passed through unchanged; and after a login that returned an access
token, requests carry that token as bearer. -/
theorem bearer_token_header (storage : LocalStorage) (config : RequestConfig) :
    (∀ t, assocGet storage "token" = some t → t ≠ "" →
      assocGet (requestInterceptor storage config).headers "Authorization"
        = some ("Bearer " ++ t)) ∧
    (assocGet storage "token" = none → requestInterceptor storage config = config) ∧
    (∀ a, a ≠ "" →
      assocGet (requestInterceptor (login storage (some a)) config).headers "Authorization"
        = some ("Bearer " ++ a)) := by
  refine ⟨?_, ?_, ?_⟩
  · intro t ht hne
    simp [requestInterceptor, ht, strTruthy, hne, assocGet_updateAssoc]
  · intro hnone
    simp [requestInterceptor, hnone, strTruthy]
  · intro a ha
    simp [login, requestInterceptor, strTruthy, ha, assocGet_updateAssoc]

/-- C8 witness. -/
theorem bearer_token_header_witness :
    assocGet (requestInterceptor [("token", "abc")] { headers := [] }).headers
      "Authorization" = some ("Bearer " ++ "abc") :=
  (bearer_token_header [("token", "abc")] { headers := [] }).1 "abc" (by decide) (by decide)
